import Mathlib

/-!
# NFO Tracker mobile app — presence/status derivation and heartbeat reconciliation

Shallow embedding of the status-derivation and heartbeat-reconciliation logic of
`src/app/src/screens/NFOHomeScreen.tsx` and of the fleet-viewer filtering and
aggregation logic of `src/app/src/screens/ManagerDashboardScreen.tsx`.

Conventions of the embedding:
* JavaScript strings become `String`; `s.trim()`, `s.toLowerCase()` and
  `s.toUpperCase()` become `jsTrim`, `jsToLower` and `jsToUpper` below (faithful
  on the ASCII site ids and usernames the app manipulates), `s.includes(q)`
  becomes infix testing on the underlying character lists.
* JavaScript numbers carrying coordinates become `ℚ` (exact, so that "exactly 0"
  is a meaningful statement); timestamps compared via `Date.getTime()` become
  their epoch value in `ℕ`.
* Nullable fields become `Option`; the JavaScript coalescing `x || null` on a
  string becomes `some` exactly when the string is non-empty, and on a number
  exactly when the number is non-zero (0 is falsy in JavaScript).
* Stateful handlers are embedded as functions from the component state (and the
  clock value `now`) to the list of externally visible events they emit, in
  program order; React `setX` calls mutate state only after the handler's render
  closure completes, so a heartbeat issued inside a handler reads the state the
  closure captured.
-/

/-- JavaScript `s.trim()`: drop leading and trailing whitespace. -/
def jsTrim (s : String) : String :=
  ⟨((s.data.dropWhile Char.isWhitespace).reverse.dropWhile Char.isWhitespace).reverse⟩

/-- JavaScript `s.toLowerCase()` on the ASCII data the app manipulates. -/
def jsToLower (s : String) : String :=
  ⟨s.data.map Char.toLower⟩

/-- JavaScript `s.toUpperCase()` on the ASCII data the app manipulates. -/
def jsToUpper (s : String) : String :=
  ⟨s.data.map Char.toUpper⟩

/-- A latitude/longitude pair, `LocationCoordinates` in `src/app/src/types`. -/
structure Coordinates where
  lat : ℚ
  lng : ℚ
deriving DecidableEq

/-- The value of the `derivedStatus` memo in `NFOHomeScreen.tsx` (lines 100-105):
`'off'` when off shift, else `'busy'`/`'free'`. -/
inductive DerivedStatus
  | off
  | free
  | busy
deriving DecidableEq

/-- `NFOHomeScreen.tsx` lines 100-105: derive the displayed status from the
on-shift flag, the activity text and the selected site id. -/
def derivedStatus (onShift : Bool) (activity selectedSiteId : String) : DerivedStatus :=
  if !onShift then .off
  else
    let hasActivity := (jsTrim activity).length > 0
    let hasSiteId := (jsTrim selectedSiteId).length > 0
    if hasActivity || hasSiteId then .busy else .free

/-- `NFOHomeScreen.tsx` lines 94-97: the normalized (trimmed, lower-cased)
lookup keys of the valid site ids. -/
def normalizedSiteIdSet (siteOptions : List String) : List String :=
  siteOptions.map (fun id => jsToLower (jsTrim id))

/-- `NFOHomeScreen.tsx` lines 324-327 / 343-346: recover the canonical stored
casing of a (already trimmed) candidate site id from `siteOptions`; falls back
to the candidate itself when no option matches. -/
def resolveCanonical (siteOptions : List String) (cand : String) : String :=
  (siteOptions.find? (fun id => jsToLower (jsTrim id) == jsToLower cand)).getD cand

/-- A non-empty string is truthy in JavaScript; `s || null` yields `null`
exactly on the empty string. -/
def strOrNull (s : String) : Option String :=
  if s.length > 0 then some s else none

/-- JavaScript `x || null` for an optional number: `0` (and an absent value)
coalesce to `null`. -/
def numOrNull (v : Option ℚ) : Option ℚ :=
  match v with
  | some x => if x = 0 then none else some x
  | none => none

/-- In-memory state of `NFOHomeScreen` relevant to the reconciliation logic. -/
structure HomeState where
  username : String
  onShift : Bool
  activity : String
  selectedSiteId : String
  siteQuery : String
  workOrderId : String
  currentLocation : Option Coordinates
  siteOptions : List String
  homeLocation : Option String
deriving DecidableEq

/-- The row sent to `supabase.from('nfo_status').upsert` by `sendStatusHeartbeat`
(`NFOHomeScreen.tsx` lines 378-393). -/
structure StatusPayload where
  username : String
  logged_in : Bool
  on_shift : Bool
  status : String
  activity : Option String
  site_id : Option String
  work_order_id : Option String
  lat : ℚ
  lng : ℚ
  home_location : Option String
  updated_at : String
  last_ping : String
  last_active_at : String
  last_active_source : String
deriving DecidableEq

/-- Result of one `sendStatusHeartbeat` call: either an early return behind an
`Alert.alert` (no backend call), or the upsert of a full status row. -/
inductive HeartbeatOutcome
  | invalidSite (candidate : String)
  | siteRequired
  | wrote (p : StatusPayload)
deriving DecidableEq

/-- The backend writes a `sendStatusHeartbeat` call issues. -/
def statusWrites : HeartbeatOutcome → List StatusPayload
  | .wrote p => [p]
  | _ => []

/-- `NFOHomeScreen.tsx` lines 303-414, `sendStatusHeartbeat(lat, lng)`:
validate the typed/selected site id against the normalized site set, derive the
status for the database, enforce the busy-requires-site check, and on success
build the full presence row that is upserted keyed by `username`. -/
def sendStatusHeartbeat (st : HomeState) (lat lng : ℚ) (now : String) : HeartbeatOutcome :=
  let typed := jsTrim st.siteQuery
  let chosen := jsTrim st.selectedSiteId
  let validKeys := normalizedSiteIdSet st.siteOptions
  -- 1) typed but not chosen from the dropdown: reject unknown ids
  if typed.length > 0 && chosen.length == 0 && !(validKeys.contains (jsToLower typed)) then
    .invalidSite typed
  -- 2) a selected site id: reject unknown ids
  else if chosen.length > 0 && !(validKeys.contains (jsToLower chosen)) then
    .invalidSite chosen
  else
    let finalSiteId : Option String :=
      if chosen.length > 0 then some (resolveCanonical st.siteOptions chosen)
      else if typed.length > 0 then some (resolveCanonical st.siteOptions typed)
      else none
    let statusForDb : String :=
      if !st.onShift then "off-shift"
      else
        let hasActivity := (jsTrim st.activity).length > 0
        let hasSiteId := match finalSiteId with
          | some s => s.length > 0
          | none => false
        if hasActivity || hasSiteId then "busy" else "free"
    -- 3) busy requires a (truthy) final site id
    let finalFalsy := match finalSiteId with
      | some s => s.length == 0
      | none => true
    if statusForDb == "busy" && finalFalsy then
      .siteRequired
    else
      .wrote {
        username := st.username
        logged_in := true
        on_shift := st.onShift
        status := statusForDb
        activity := strOrNull st.activity
        site_id := finalSiteId
        work_order_id := strOrNull st.workOrderId
        lat := lat
        lng := lng
        home_location := st.homeLocation
        updated_at := now
        last_ping := now
        last_active_at := now
        last_active_source := "mobile-app"
      }

/-- The row sent to `supabase.from('nfo_status').upsert` by `sendLocationHeartbeat`
(`NFOHomeScreen.tsx` lines 420-427): identity key, position, ping timestamps and
source only. -/
structure LocationPayload where
  username : String
  lat : ℚ
  lng : ℚ
  last_ping : String
  last_active_at : String
  last_active_source : String
deriving DecidableEq

/-- `NFOHomeScreen.tsx` lines 416-444, `sendLocationHeartbeat(lat, lng)`: the
location-only heartbeat builds its reduced payload unconditionally. -/
def sendLocationHeartbeat (username : String) (lat lng : ℚ) (now : String) : LocationPayload :=
  { username := username
    lat := lat
    lng := lng
    last_ping := now
    last_active_at := now
    last_active_source := "mobile-app-gps" }

/-- The row sent to `supabase.from('nfo_status').upsert` by `handleLogout`
(`NFOHomeScreen.tsx` lines 488-502). -/
structure LogoutPayload where
  username : String
  logged_in : Bool
  on_shift : Bool
  status : String
  activity : Option String
  site_id : Option String
  work_order_id : Option String
  lat : Option ℚ
  lng : Option ℚ
  updated_at : String
  last_ping : String
  last_active_at : String
  last_active_source : String
deriving DecidableEq

/-- Externally visible steps of `handleLogout`, in program order. -/
inductive LogoutEvent
  | stopTracking
  | upsert (p : LogoutPayload)
  | clearSession
deriving DecidableEq

/-- `NFOHomeScreen.tsx` lines 488-502: the final logout row. `lat`/`lng` use
`currentLocation?.lat || null`, so an absent location — or a coordinate equal
to `0`, which is falsy — is written as `null`. -/
def logoutPayload (st : HomeState) (now : String) : LogoutPayload :=
  { username := st.username
    logged_in := false
    on_shift := false
    status := "off-shift"
    activity := none
    site_id := none
    work_order_id := none
    lat := numOrNull (st.currentLocation.map Coordinates.lat)
    lng := numOrNull (st.currentLocation.map Coordinates.lng)
    updated_at := now
    last_ping := now
    last_active_at := now
    last_active_source := "mobile-app" }

/-- `NFOHomeScreen.tsx` lines 470-525, `handleLogout`: stop background tracking
when on shift, upsert the final logout row, and only then (in the `finally`
block) clear the session identity via `logout()`. -/
def handleLogout (st : HomeState) (now : String) : List LogoutEvent :=
  (if st.onShift then [.stopTracking] else []) ++
    [.upsert (logoutPayload st now), .clearSession]

/-- Externally visible steps of the user-action handlers, in program order. -/
inductive HomeEvent
  | startTracking
  | stopTracking
  | statusHeartbeat (outcome : HeartbeatOutcome)
deriving DecidableEq

/-- `NFOHomeScreen.tsx` lines 229-244, `handleShiftToggle(newValue)`: start or
stop background tracking, then send a status heartbeat only when a location is
known. The heartbeat closure still reads the render's captured state, in which
`onShift` is the pre-toggle value (React state updates are deferred). -/
def handleShiftToggle (st : HomeState) (newValue : Bool) (now : String) : List HomeEvent :=
  (if newValue then [.startTracking] else [.stopTracking]) ++
    (match st.currentLocation with
     | some loc => [.statusHeartbeat (sendStatusHeartbeat st loc.lat loc.lng now)]
     | none => [])

/-- `NFOHomeScreen.tsx` lines 446-453, `handleUpdateActivity`: send a status
heartbeat only when a location is known. -/
def handleUpdateActivity (st : HomeState) (now : String) : List HomeEvent :=
  match st.currentLocation with
  | some loc => [.statusHeartbeat (sendStatusHeartbeat st loc.lat loc.lng now)]
  | none => []

/-- `NFOHomeScreen.tsx` lines 455-468, `handleCloseActivity`: clear activity,
site and work order in component state, then send a status heartbeat only when
a location is known (the heartbeat closure reads the captured pre-clear state). -/
def handleCloseActivity (st : HomeState) (now : String) : List HomeEvent :=
  match st.currentLocation with
  | some loc => [.statusHeartbeat (sendStatusHeartbeat st loc.lat loc.lng now)]
  | none => []

/-- Count of full status reconciliations a handler performed. -/
def statusCalls (events : List HomeEvent) : Nat :=
  (events.filter (fun e => match e with
    | .statusHeartbeat _ => true
    | _ => false)).length

/-- A stored row of the `nfo_status` presence table (fields per spec §3). -/
structure PresenceRow where
  username : String
  logged_in : Bool
  on_shift : Bool
  status : String
  activity : Option String
  site_id : Option String
  work_order_id : Option String
  lat : Option ℚ
  lng : Option ℚ
  home_location : Option String
  updated_at : String
  last_ping : String
  last_active_at : String
  last_active_source : String
deriving DecidableEq

/-- A partial upsert payload for the presence table: the key column plus, for
each other column, either an absent entry (`none`, column untouched) or a value
to write. Nullable columns carry an inner `Option`. -/
structure PartialPresence where
  username : String
  logged_in : Option Bool
  on_shift : Option Bool
  status : Option String
  activity : Option (Option String)
  site_id : Option (Option String)
  work_order_id : Option (Option String)
  lat : Option (Option ℚ)
  lng : Option (Option ℚ)
  home_location : Option (Option String)
  updated_at : Option String
  last_ping : Option String
  last_active_at : Option String
  last_active_source : Option String
deriving DecidableEq

/-- The columns named by the `sendLocationHeartbeat` payload, as a partial
upsert: only username, lat, lng, last_ping, last_active_at and
last_active_source are present; every other column is absent. -/
def locationPartialPayload (p : LocationPayload) : PartialPresence :=
  { username := p.username
    logged_in := none
    on_shift := none
    status := none
    activity := none
    site_id := none
    work_order_id := none
    lat := some (some p.lat)
    lng := some (some p.lng)
    home_location := none
    updated_at := none
    last_ping := some p.last_ping
    last_active_at := some p.last_active_at
    last_active_source := some p.last_active_source }

/-- Modelled from the spec: the backend upsert collaborator (§4.5, §6) applies
a payload naming only a subset of columns to an existing row as a
partial-field merge — each column named in the payload is overwritten, every
other column keeps its stored value. The backend itself is external to the
repository; this merge rule is the location-variant semantics the spec
prescribes. -/
def mergeRow (row : PresenceRow) (p : PartialPresence) : PresenceRow :=
  { username := p.username
    logged_in := p.logged_in.getD row.logged_in
    on_shift := p.on_shift.getD row.on_shift
    status := p.status.getD row.status
    activity := p.activity.getD row.activity
    site_id := p.site_id.getD row.site_id
    work_order_id := p.work_order_id.getD row.work_order_id
    lat := p.lat.getD row.lat
    lng := p.lng.getD row.lng
    home_location := p.home_location.getD row.home_location
    updated_at := p.updated_at.getD row.updated_at
    last_ping := p.last_ping.getD row.last_ping
    last_active_at := p.last_active_at.getD row.last_active_at
    last_active_source := p.last_active_source.getD row.last_active_source }

/-- The update path of an upsert keyed by `username`: a stored row is merged
with the payload exactly when its key matches, and kept as is otherwise. -/
def upsertRowWith (p : PartialPresence) (row : PresenceRow) : PresenceRow :=
  if row.username == p.username then mergeRow row p else row

/-! ## Fleet Viewer (`ManagerDashboardScreen.tsx`) -/

/-- A fetched `nfo_status` row as the manager dashboard consumes it
(`last_ping` compared through `Date.getTime()`, embedded as its epoch value). -/
structure NFORecord where
  username : String
  name : Option String
  logged_in : Bool
  on_shift : Bool
  status : String
  activity : Option String
  site_id : Option String
  home_location : Option String
  lat : Option ℚ
  lng : Option ℚ
  last_ping : ℕ
deriving DecidableEq

/-- A row of the `NFOusers` directory table. -/
structure NFOUserRec where
  username : String
  name : Option String
  home_location : Option String
deriving DecidableEq

/-- The status-bucket filter of the dashboard (`statusFilter` state). -/
inductive StatusFilter
  | all
  | online
  | offline
  | free
  | busy
deriving DecidableEq

/-- JavaScript `s.includes(q)`: `q` occurs as a contiguous substring of `s`. -/
def jsIncludes (s q : String) : Bool :=
  decide (q.data <:+: s.data)

/-- `ManagerDashboardScreen.tsx` lines 116-122: the `Map` from trimmed,
upper-cased username to directory row; with duplicate keys the later entry
wins, so lookup scans the reversed list. -/
def nfoUserByUsername (nfoUsers : List NFOUserRec) (key : String) : Option NFOUserRec :=
  nfoUsers.reverse.find? (fun u => jsToUpper (jsTrim u.username) == key)

/-- `ManagerDashboardScreen.tsx` lines 152-163: the display name a record is
searched under — its own non-blank `name`, else the directory name, else empty. -/
def searchDisplayName (nfoUsers : List NFOUserRec) (nfo : NFORecord) : String :=
  match nfo.name with
  | some rawName =>
      if (jsTrim rawName).length > 0 then jsTrim rawName
      else ((nfoUserByUsername nfoUsers (jsToUpper (jsTrim nfo.username))).bind NFOUserRec.name).getD ""
  | none => ((nfoUserByUsername nfoUsers (jsToUpper (jsTrim nfo.username))).bind NFOUserRec.name).getD ""

/-- `ManagerDashboardScreen.tsx` lines 125-167, `filteredNfos`: area filter,
then status-bucket filter, then case-insensitive substring search over display
name and username. -/
def filteredNfos (nfoList : List NFORecord) (nfoUsers : List NFOUserRec)
    (selectedArea : String) (statusFilter : StatusFilter) (searchQuery : String) :
    List NFORecord :=
  let afterArea :=
    if selectedArea ≠ "All" then
      nfoList.filter (fun nfo => nfo.home_location == some selectedArea)
    else nfoList
  let afterStatus :=
    match statusFilter with
    | .online => afterArea.filter (fun nfo => nfo.logged_in)
    | .offline => afterArea.filter (fun nfo => !nfo.logged_in)
    | .free => afterArea.filter
        (fun nfo => nfo.logged_in && nfo.on_shift && nfo.status == "free")
    | .busy => afterArea.filter
        (fun nfo => nfo.logged_in && nfo.on_shift && nfo.status == "busy")
    | .all => afterArea
  if (jsTrim searchQuery).length > 0 then
    let q := jsToLower (jsTrim searchQuery)
    afterStatus.filter (fun nfo =>
      jsIncludes (jsToLower (searchDisplayName nfoUsers nfo)) q
        || jsIncludes (jsToLower nfo.username) q)
  else afterStatus

/-- `ManagerDashboardScreen.tsx` line 171: rank of a status for sorting
(busy 0, free 1, off-shift 2, anything else 3). -/
def statusRank (s : String) : ℕ :=
  if s == "busy" then 0 else if s == "free" then 1 else if s == "off-shift" then 2 else 3

/-- The comparator of `sortedNfos` (lines 170-183) as a total preorder test:
lower status rank first, ties broken by more recent `last_ping` first. -/
def fleetLE (a b : NFORecord) : Bool :=
  decide (statusRank a.status < statusRank b.status)
    || (decide (statusRank a.status = statusRank b.status)
        && decide (b.last_ping ≤ a.last_ping))

/-- `ManagerDashboardScreen.tsx` lines 170-183, `sortedNfos`: the displayed
list, the filtered list sorted by the status-then-recency comparator. -/
def sortedNfos (nfoList : List NFORecord) (nfoUsers : List NFOUserRec)
    (selectedArea : String) (statusFilter : StatusFilter) (searchQuery : String) :
    List NFORecord :=
  (filteredNfos nfoList nfoUsers selectedArea statusFilter searchQuery).mergeSort fleetLE

/-- The dashboard's aggregate counters. -/
structure FleetStats where
  total : ℕ
  online : ℕ
  offline : ℕ
  free : ℕ
  busy : ℕ
deriving DecidableEq

/-- `ManagerDashboardScreen.tsx` lines 186-200, `stats`: counters computed from
the full `nfoList`. -/
def fleetStats (nfoList : List NFORecord) : FleetStats :=
  { total := nfoList.length
    online := (nfoList.filter (fun nfo => nfo.logged_in)).length
    offline := (nfoList.filter (fun nfo => !nfo.logged_in)).length
    free := (nfoList.filter
        (fun nfo => nfo.logged_in && nfo.on_shift && nfo.status == "free")).length
    busy := (nfoList.filter
        (fun nfo => nfo.logged_in && nfo.on_shift && nfo.status == "busy")).length }

/-! ## Spec-side predicates and concrete example states -/

/-- The effective candidate site id of a reconciliation: the trimmed selected
site id when non-empty, else the trimmed typed query. -/
def candidateSite (st : HomeState) : String :=
  if (jsTrim st.selectedSiteId).length > 0 then jsTrim st.selectedSiteId else jsTrim st.siteQuery

/-- Spec §7 `InvalidSite`: a non-empty candidate site id whose trimmed,
lower-cased form is not in the valid-site set. -/
@[reducible]
def detectsInvalidSite (st : HomeState) : Prop :=
  (candidateSite st).length > 0
    ∧ ¬ ((normalizedSiteIdSet st.siteOptions).contains (jsToLower (candidateSite st)) = true)

/-- Spec §7 `SiteRequired` as the code enforces it on validated inputs: no
candidate site at all, yet the derived status is busy (on shift with a
non-empty trimmed activity). -/
@[reducible]
def detectsSiteRequired (st : HomeState) : Prop :=
  (candidateSite st).length = 0 ∧ st.onShift = true ∧ (jsTrim st.activity).length > 0

/-- An on-shift engineer with an activity selected but no typed or chosen
site — the state of claim C2. -/
def busyNoSiteState : HomeState :=
  { username := "nfo1"
    onShift := true
    activity := "Outage"
    selectedSiteId := ""
    siteQuery := ""
    workOrderId := ""
    currentLocation := some ⟨21, 39⟩
    siteOptions := ["SITE-042"]
    homeLocation := none }

/-- A state whose typed site id is not in the loaded site set. -/
def invalidSiteState : HomeState :=
  { username := "nfo1"
    onShift := true
    activity := ""
    selectedSiteId := ""
    siteQuery := "NOPE"
    workOrderId := ""
    currentLocation := some ⟨21, 39⟩
    siteOptions := ["SITE-042"]
    homeLocation := none }

/-- A state with no location sample obtained yet. -/
def noLocationState : HomeState :=
  { username := "nfo1"
    onShift := false
    activity := "Survey"
    selectedSiteId := ""
    siteQuery := ""
    workOrderId := ""
    currentLocation := none
    siteOptions := ["SITE-042"]
    homeLocation := none }

/-- An off-shift engineer with a known position, used to instantiate the
reconciliation theorems. -/
def offShiftState : HomeState :=
  { username := "nfo1"
    onShift := false
    activity := ""
    selectedSiteId := ""
    siteQuery := ""
    workOrderId := ""
    currentLocation := some ⟨21, 39⟩
    siteOptions := []
    homeLocation := none }

/-- The row `sendStatusHeartbeat` writes from `offShiftState`. -/
def offShiftPayload : StatusPayload :=
  { username := "nfo1"
    logged_in := true
    on_shift := false
    status := "off-shift"
    activity := none
    site_id := none
    work_order_id := none
    lat := 21
    lng := 39
    home_location := none
    updated_at := "t0"
    last_ping := "t0"
    last_active_at := "t0"
    last_active_source := "mobile-app" }

/-- An engineer standing exactly on the equator. -/
def equatorState : HomeState :=
  { username := "nfo1"
    onShift := true
    activity := ""
    selectedSiteId := ""
    siteQuery := ""
    workOrderId := ""
    currentLocation := some ⟨0, 39⟩
    siteOptions := []
    homeLocation := none }

/-- C1: the status derivation returns off-shift iff `on_shift` is false, busy
iff on shift and (trimmed activity non-empty or trimmed site id non-empty), and
free otherwise. -/
theorem derivedStatus_characterization (onShift : Bool) (activity selectedSiteId : String) :
    (derivedStatus onShift activity selectedSiteId = .off ↔ onShift = false)
    ∧ (derivedStatus onShift activity selectedSiteId = .busy ↔
        onShift = true ∧ ((jsTrim activity).length > 0 ∨ (jsTrim selectedSiteId).length > 0))
    ∧ (derivedStatus onShift activity selectedSiteId = .free ↔
        onShift = true ∧ ¬((jsTrim activity).length > 0 ∨ (jsTrim selectedSiteId).length > 0)) := by
  cases onShift <;>
    simp only [derivedStatus, Bool.not_true, Bool.not_false, if_true, if_false] <;>
    constructor <;>
    · constructor <;> try constructor
      all_goals
        by_cases ha : (jsTrim activity).length > 0 <;>
          by_cases hs : (jsTrim selectedSiteId).length > 0 <;>
            simp [ha, hs]

/-- C2: in the state where the engineer is on shift with a non-empty activity
and no typed or selected site, `sendStatusHeartbeat` derives busy from the
activity alone, yet aborts with the `Site required` alert and performs no
upsert — contradicting spec §4.5 step 3, which forbids requiring a site when
activity already justifies busy. -/
theorem busy_from_activity_alone_aborts :
    derivedStatus busyNoSiteState.onShift busyNoSiteState.activity
        busyNoSiteState.selectedSiteId = .busy
    ∧ sendStatusHeartbeat busyNoSiteState 21 39 "t0" = .siteRequired
    ∧ statusWrites (sendStatusHeartbeat busyNoSiteState 21 39 "t0") = [] := by
  decide

/-- C3: whenever the reconciliation's inputs exhibit a validation error — a
non-empty candidate site whose trimmed, lower-cased form is outside the valid
site set, or a busy derivation with no candidate site at all —
`sendStatusHeartbeat` returns before issuing any backend upsert. -/
theorem validation_error_blocks_write (st : HomeState) (lat lng : ℚ) (now : String)
    (h : detectsInvalidSite st ∨ detectsSiteRequired st) :
    statusWrites (sendStatusHeartbeat st lat lng now) = [] := by
  unfold detectsInvalidSite detectsSiteRequired candidateSite at h
  rcases h with ⟨hlen, hmem⟩ | ⟨hcand, hshift, hact⟩
  · by_cases hc : (jsTrim st.selectedSiteId).length > 0
    · rw [if_pos hc] at hlen hmem
      have hc0 : ¬((jsTrim st.selectedSiteId).length = 0) := by omega
      have hmem' : jsToLower (jsTrim st.selectedSiteId) ∉
          normalizedSiteIdSet st.siteOptions := by simpa using hmem
      simp [sendStatusHeartbeat, hc, hc0, hmem', statusWrites]
    · rw [if_neg hc] at hlen hmem
      have hc0 : (jsTrim st.selectedSiteId).length = 0 := by omega
      have hmem' : jsToLower (jsTrim st.siteQuery) ∉
          normalizedSiteIdSet st.siteOptions := by simpa using hmem
      simp [sendStatusHeartbeat, hlen, hc0, hmem', statusWrites]
  · by_cases hc : (jsTrim st.selectedSiteId).length > 0
    · rw [if_pos hc] at hcand; omega
    · rw [if_neg hc] at hcand
      have hc0 : (jsTrim st.selectedSiteId).length = 0 := by omega
      simp [sendStatusHeartbeat, hcand, hc0, hshift, hact, statusWrites]

/-- C3 witness: a typed site id outside the loaded site set blocks the write. -/
theorem validation_error_blocks_write_witness :
    (detectsInvalidSite invalidSiteState ∨ detectsSiteRequired invalidSiteState)
    ∧ statusWrites (sendStatusHeartbeat invalidSiteState 21 39 "t0") = [] :=
  ⟨Or.inl (by decide),
    validation_error_blocks_write invalidSiteState 21 39 "t0" (Or.inl (by decide))⟩

/-- C4: a candidate site whose trimmed, lower-cased form matches some loaded
site id passes the normalized-set membership test, and the canonical resolution
returns a stored member of the site list with that same normalized form — the
stored casing, not the typed one. -/
theorem siteAcceptance_resolves_canonical (opts : List String) (cand : String)
    (h : ∃ s ∈ opts, jsToLower (jsTrim s) = jsToLower (jsTrim cand)) :
    (normalizedSiteIdSet opts).contains (jsToLower (jsTrim cand)) = true
    ∧ ∃ s ∈ opts, jsToLower (jsTrim s) = jsToLower (jsTrim cand)
        ∧ resolveCanonical opts (jsTrim cand) = s := by
  obtain ⟨s, hs, hkey⟩ := h
  constructor
  · have : jsToLower (jsTrim cand) ∈ normalizedSiteIdSet opts := by
      rw [← hkey]
      exact List.mem_map_of_mem _ hs
    simpa using this
  · have hfind : (opts.find? (fun id => jsToLower (jsTrim id) == jsToLower (jsTrim cand))).isSome := by
      rw [List.find?_isSome]
      exact ⟨s, hs, by simpa using hkey⟩
    obtain ⟨r, hr⟩ := Option.isSome_iff_exists.mp hfind
    refine ⟨r, List.mem_of_find?_eq_some hr, ?_, ?_⟩
    · simpa using List.find?_some hr
    · simp [resolveCanonical, hr]

/-- C4 witness: with the site set `["SITE-042"]`, the typed inputs
`"site-042"`, `" Site-042 "` and `"SITE-042"` all pass acceptance and resolve
to the stored casing `"SITE-042"`. -/
theorem siteAcceptance_resolves_canonical_witness :
    ((normalizedSiteIdSet ["SITE-042"]).contains (jsToLower (jsTrim "site-042")) = true
      ∧ ∃ s ∈ ["SITE-042"], jsToLower (jsTrim s) = jsToLower (jsTrim "site-042")
          ∧ resolveCanonical ["SITE-042"] (jsTrim "site-042") = s)
    ∧ resolveCanonical ["SITE-042"] (jsTrim "site-042") = "SITE-042"
    ∧ resolveCanonical ["SITE-042"] (jsTrim " Site-042 ") = "SITE-042"
    ∧ resolveCanonical ["SITE-042"] (jsTrim "SITE-042") = "SITE-042" :=
  ⟨siteAcceptance_resolves_canonical ["SITE-042"] "site-042"
      ⟨"SITE-042", by simp, by decide⟩,
    by decide, by decide, by decide⟩

/-- C5: for every pre-logout in-memory state, `handleLogout` upserts a row with
`logged_in = false`, `on_shift = false`, `status = off-shift` and null
activity, site and work order, and this upsert occurs strictly before the
session identity is cleared. -/
theorem logout_writes_clean_row_before_clearing_session (st : HomeState) (now : String) :
    ∃ (p : LogoutPayload) (i j : ℕ),
      (handleLogout st now)[i]? = some (.upsert p)
      ∧ (handleLogout st now)[j]? = some .clearSession
      ∧ i < j
      ∧ p.logged_in = false ∧ p.on_shift = false ∧ p.status = "off-shift"
      ∧ p.activity = none ∧ p.site_id = none ∧ p.work_order_id = none := by
  refine ⟨logoutPayload st now, ?_⟩
  cases hs : st.onShift
  · exact ⟨0, 1, by simp [handleLogout, hs], by simp [handleLogout, hs],
      by omega, rfl, rfl, rfl, rfl, rfl, rfl⟩
  · exact ⟨1, 2, by simp [handleLogout, hs], by simp [handleLogout, hs],
      by omega, rfl, rfl, rfl, rfl, rfl, rfl⟩

/-- C6: every presence row written by a full status reconciliation — the
status heartbeat and the logout reconciliation alike — satisfies invariant I2:
its status is `off-shift` exactly when its on-shift flag is false. -/
theorem full_reconciliation_preserves_I2 :
    (∀ (st : HomeState) (lat lng : ℚ) (now : String) (p : StatusPayload),
        sendStatusHeartbeat st lat lng now = .wrote p →
          (p.status = "off-shift" ↔ p.on_shift = false))
    ∧ (∀ (st : HomeState) (now : String) (p : LogoutPayload),
        LogoutEvent.upsert p ∈ handleLogout st now →
          (p.status = "off-shift" ↔ p.on_shift = false)) := by
  constructor
  · intro st lat lng now p hw
    unfold sendStatusHeartbeat at hw
    cases hon : st.onShift <;>
      simp [hon] at hw <;>
      (repeat' split at hw) <;>
      first
        | (simp only [HeartbeatOutcome.wrote.injEq] at hw; subst hw; simp)
        | simp at hw
  · intro st now p hp
    have : p = logoutPayload st now := by
      cases hs : st.onShift <;> simp [handleLogout, hs] at hp <;> exact hp
    subst this
    simp [logoutPayload]

/-- C6 witness: the off-shift heartbeat row of a concrete state satisfies I2. -/
theorem full_reconciliation_preserves_I2_witness :
    sendStatusHeartbeat offShiftState 21 39 "t0" = .wrote offShiftPayload
    ∧ (offShiftPayload.status = "off-shift" ↔ offShiftPayload.on_shift = false) :=
  ⟨by decide,
    full_reconciliation_preserves_I2.1 offShiftState 21 39 "t0" offShiftPayload (by decide)⟩

/-- C7 counterexample: with no location sample yet (`currentLocation` null),
the shift toggle, the activity update and the activity clear all perform zero
status reconciliations, refuting the claim that a reconciliation is triggered
on every invocation including the null-location state. -/
theorem handlers_skip_reconcile_without_location :
    noLocationState.currentLocation = none
    ∧ statusCalls (handleShiftToggle noLocationState true "t0") = 0
    ∧ statusCalls (handleUpdateActivity noLocationState "t0") = 0
    ∧ statusCalls (handleCloseActivity noLocationState "t0") = 0 := by
  decide

/-- C7 amended: each of the three handlers triggers exactly one full status
reconciliation when a location sample is available, and none when
`currentLocation` is null. -/
theorem handlers_reconcile_iff_location_known (st : HomeState) (newValue : Bool)
    (now : String) :
    statusCalls (handleShiftToggle st newValue now)
        = (if st.currentLocation.isSome then 1 else 0)
    ∧ statusCalls (handleUpdateActivity st now)
        = (if st.currentLocation.isSome then 1 else 0)
    ∧ statusCalls (handleCloseActivity st now)
        = (if st.currentLocation.isSome then 1 else 0) := by
  cases hloc : st.currentLocation <;>
    cases newValue <;>
      simp [handleShiftToggle, handleUpdateActivity, handleCloseActivity,
        statusCalls, hloc]

/-- C8: applying the location-only heartbeat's partial payload to any stored
presence row leaves `logged_in`, `on_shift`, `status`, `activity`, `site_id`,
`work_order_id`, `home_location` and `updated_at` unchanged; only the key,
position, ping timestamps and source columns can change. -/
theorem location_heartbeat_is_partial_merge (u : String) (lat lng : ℚ) (now : String)
    (row : PresenceRow) :
    (upsertRowWith (locationPartialPayload (sendLocationHeartbeat u lat lng now)) row).logged_in
        = row.logged_in
    ∧ (upsertRowWith (locationPartialPayload (sendLocationHeartbeat u lat lng now)) row).on_shift
        = row.on_shift
    ∧ (upsertRowWith (locationPartialPayload (sendLocationHeartbeat u lat lng now)) row).status
        = row.status
    ∧ (upsertRowWith (locationPartialPayload (sendLocationHeartbeat u lat lng now)) row).activity
        = row.activity
    ∧ (upsertRowWith (locationPartialPayload (sendLocationHeartbeat u lat lng now)) row).site_id
        = row.site_id
    ∧ (upsertRowWith (locationPartialPayload (sendLocationHeartbeat u lat lng now)) row).work_order_id
        = row.work_order_id
    ∧ (upsertRowWith (locationPartialPayload (sendLocationHeartbeat u lat lng now)) row).home_location
        = row.home_location
    ∧ (upsertRowWith (locationPartialPayload (sendLocationHeartbeat u lat lng now)) row).updated_at
        = row.updated_at := by
  unfold upsertRowWith
  split <;> simp [mergeRow, locationPartialPayload, sendLocationHeartbeat]

/-- C9: the dashboard's aggregate counters are counts over the full unfiltered
record set — independent of the active area, status-bucket and search
filters — while the displayed (sorted) list has exactly the filtered set's
size. -/
theorem fleet_counters_unfiltered_list_filtered (nfoList : List NFORecord)
    (nfoUsers : List NFOUserRec) (selectedArea : String) (statusFilter : StatusFilter)
    (searchQuery : String) :
    (fleetStats nfoList).total = nfoList.length
    ∧ (fleetStats nfoList).online = nfoList.countP (fun nfo => nfo.logged_in)
    ∧ (fleetStats nfoList).offline = nfoList.countP (fun nfo => !nfo.logged_in)
    ∧ (fleetStats nfoList).free
        = nfoList.countP (fun nfo => nfo.logged_in && nfo.on_shift && nfo.status == "free")
    ∧ (fleetStats nfoList).busy
        = nfoList.countP (fun nfo => nfo.logged_in && nfo.on_shift && nfo.status == "busy")
    ∧ (sortedNfos nfoList nfoUsers selectedArea statusFilter searchQuery).length
        = (filteredNfos nfoList nfoUsers selectedArea statusFilter searchQuery).length := by
  refine ⟨rfl, ?_, ?_, ?_, ?_, ?_⟩
  · simp [fleetStats, List.countP_eq_length_filter]
  · simp [fleetStats, List.countP_eq_length_filter]
  · simp [fleetStats, List.countP_eq_length_filter]
  · simp [fleetStats, List.countP_eq_length_filter]
  · exact (List.mergeSort_perm _ _).length_eq

/-- C10: when a position is known at logout, a coordinate that is exactly `0`
is coalesced to null in the logout row, while a non-zero coordinate is written
through — the equator/prime-meridian case is dropped despite the position being
known. -/
theorem logout_zero_coordinate_written_as_null (st : HomeState) (now : String)
    (loc : Coordinates) (h : st.currentLocation = some loc) :
    (loc.lat = 0 → (logoutPayload st now).lat = none)
    ∧ (loc.lng = 0 → (logoutPayload st now).lng = none)
    ∧ (loc.lat ≠ 0 → (logoutPayload st now).lat = some loc.lat)
    ∧ (loc.lng ≠ 0 → (logoutPayload st now).lng = some loc.lng) := by
  refine ⟨fun h0 => ?_, fun h0 => ?_, fun h0 => ?_, fun h0 => ?_⟩ <;>
    simp [logoutPayload, numOrNull, h, h0]

/-- C10 witness: an engineer standing exactly on the equator has latitude
dropped from the logout row while the longitude survives. -/
theorem logout_zero_coordinate_written_as_null_witness :
    equatorState.currentLocation = some ⟨0, 39⟩
    ∧ (logoutPayload equatorState "t0").lat = none
    ∧ (logoutPayload equatorState "t0").lng = some 39 :=
  ⟨rfl,
    (logout_zero_coordinate_written_as_null equatorState "t0" ⟨0, 39⟩ rfl).1 rfl,
    (logout_zero_coordinate_written_as_null equatorState "t0" ⟨0, 39⟩ rfl).2.2.2 (by norm_num)⟩
